import Mathlib

/-!
Verification of `src/components/RadioButton/RadioButtonItem.tsx` from
react-native-paper: a pressable list row pairing a text label with a
radio-button indicator, reading an ambient selection-group channel.

The component's `render` method is embedded as a pure Lean function from
props and the optional ambient channel to a fixed-shape render tree.
Callbacks are modelled by presence (`Option Unit`) and their invocation by
an ordered event trace: pressing the row runs the dispatch stored in the
root `TouchableRipple`'s `onPress` slot, producing the listed events in
order.
-/

/-- The `status` prop of the indicator: `'checked' | 'unchecked'`. -/
inductive Status
  | checked
  | unchecked
deriving DecidableEq

/-- A text style object; only the fields the source mentions are modelled
(`color` from the inline override and `fontSize` from `styles.label`). -/
structure TextStyleProp where
  color : Option String
  fontSize : Option Nat
deriving DecidableEq

/-- A view style object, kept as raw cosmetic key-value entries: the source
never reads view styles, it only forwards them. -/
structure ViewStyleProp where
  raw : List (String × String)
deriving DecidableEq

/-- `theme.colors` as destructured by the component (`colors.text`). -/
structure ThemeColors where
  text : String
deriving DecidableEq

/-- The `theme` prop injected by `withTheme`. -/
structure Theme where
  colors : ThemeColors
deriving DecidableEq

/-- The props of `RadioButtonItem` (`Props` in the source). Optional props
are `Option`; callbacks are modelled by presence. -/
structure Props where
  value : String
  label : String
  disabled : Option Bool
  onPress : Option Unit
  uncheckedColor : Option String
  color : Option String
  status : Option Status
  style : Option ViewStyleProp
  labelStyle : Option TextStyleProp
  theme : Theme
deriving DecidableEq

/-- The ambient group channel (`RadioButtonContextType` from
`RadioButtonGroup`): the current group value and the change callback. -/
structure RadioButtonContextType where
  value : String
  onValueChange : Option Unit
deriving DecidableEq

/-- One observable callback invocation caused by a press. -/
inductive Event
  | itemOnPress
  | groupOnValueChange (value : String)
deriving DecidableEq

/-- Modelled from the spec: `handlePress` lives in
`src/components/RadioButton/utils`, which is not under `src/`; only its
call site is. Spec section 4.2 (Press Resolution): if the item's `onPress`
is present invoke it with no arguments, then if the group's
`onValueChange` is present invoke it with the item's `value`; both absent
is a no-op, and the order is fixed as item callback first. The returned
trace lists the invocations in order. -/
def handlePress (onPress : Option Unit) (onValueChange : Option Unit)
    (value : String) : List Event :=
  (match onPress with
   | some _ => [Event.itemOnPress]
   | none => []) ++
  (match onValueChange with
   | some _ => [Event.groupOnValueChange value]
   | none => [])

/-- The rendered `<Text>` label: its style array and its content. -/
structure TextNode where
  style : List (Option TextStyleProp)
  content : String
deriving DecidableEq

/-- The rendered `<RadioButton>` indicator: the props forwarded to it. -/
structure RadioButtonNode where
  value : String
  disabled : Option Bool
  status : Option Status
  color : Option String
  uncheckedColor : Option String
deriving DecidableEq

/-- The rendered inner `<View>`: style array, its `pointerEvents="none"`
attribute, and its two children in source order (label text first, then
the indicator). -/
structure ViewNode where
  style : List (Option ViewStyleProp)
  pointerEventsNone : Bool
  text : TextNode
  radioButton : RadioButtonNode
deriving DecidableEq

/-- The rendered root `<TouchableRipple>`: the optional press handler
(absent when no handler is attached; otherwise the event trace a press
dispatches) and the single child view. -/
structure TouchableRippleNode where
  onPress : Option (List Event)
  child : ViewNode
deriving DecidableEq

/-- `styles.container` from the `StyleSheet.create` call. -/
def stylesContainer : ViewStyleProp :=
  { raw := [("flexDirection", "row"), ("alignItems", "center"),
            ("justifyContent", "space-between"), ("paddingVertical", "8"),
            ("paddingHorizontal", "16")] }

/-- `styles.label` from the `StyleSheet.create` call. -/
def stylesLabel : TextStyleProp :=
  { color := none, fontSize := some 16 }

/-- The body of `RadioButtonItem.render`, translated from the source.
`context` is what `RadioButtonContext.Consumer` supplies
(`context?: RadioButtonContextType`). The `onPress` slot is `undefined`
when `disabled` is truthy, else the closure calling `handlePress` with the
item's `onPress`, `context?.onValueChange`, and the item's `value`. The
inner view carries `[styles.container, style]` and `pointerEvents="none"`;
the text carries `[styles.label, \x7b color: colors.text \x7d, labelStyle]`
and the `label`; the indicator receives `value`, `disabled`, `status`,
`color`, `uncheckedColor`. -/
def RadioButtonItem.render (props : Props)
    (context : Option RadioButtonContextType) : TouchableRippleNode :=
  { onPress :=
      if props.disabled.getD false then
        none
      else
        some (handlePress props.onPress
          (context.bind fun c => c.onValueChange) props.value),
    child :=
      { style := [some stylesContainer, props.style],
        pointerEventsNone := true,
        text :=
          { style := [some stylesLabel,
                      some { color := some props.theme.colors.text,
                             fontSize := none },
                      props.labelStyle],
            content := props.label },
        radioButton :=
          { value := props.value,
            disabled := props.disabled,
            status := props.status,
            color := props.color,
            uncheckedColor := props.uncheckedColor } } }

/-- Modelled from the spec: the `RadioButton` indicator component is
imported from `./RadioButton`, which is not under `src/`. Spec section 4.3:
the indicator's checked state is the explicit `status` prop if provided;
otherwise it is checked iff the channel is present and the channel's value
equals the item's value; otherwise unchecked. -/
def indicatorChecked (status : Option Status)
    (context : Option RadioButtonContextType) (value : String) : Bool :=
  match status with
  | some Status.checked => true
  | some Status.unchecked => false
  | none =>
      match context with
      | some ctx => ctx.value == value
      | none => false

/-- React Native style-array flattening for the text color: later entries
override earlier ones, `undefined` entries and entries without a `color`
are skipped. Returns the effective color, if any entry sets one. -/
def flattenTextColor (arr : List (Option TextStyleProp)) : Option String :=
  arr.foldl
    (fun acc s =>
      match s with
      | some t =>
          match t.color with
          | some c => some c
          | none => acc
      | none => acc)
    none

/-- A concrete props record used by witnesses. -/
def propsA : Props :=
  { value := "first", label := "First item", disabled := none,
    onPress := some (), uncheckedColor := none, color := none,
    status := none, style := none, labelStyle := none,
    theme := { colors := { text := "black" } } }

/-- A concrete channel used by witnesses. -/
def ctxA : RadioButtonContextType :=
  { value := "first", onValueChange := some () }

/-- Concrete color and value names used in witness statements. -/
def blackColor : String := "black"

/-- The value of `propsA`, named for witness statements. -/
def firstValue : String := "first"

/-- C1: the indicator's checked state is the explicit `status` prop when
provided; otherwise it is checked iff the channel is present and the
channel's value equals the item's own value; otherwise unchecked,
regardless of the item's value. -/
theorem C1_indicator_checked_state (props : Props)
    (context : Option RadioButtonContextType) :
    (∀ s, props.status = some s →
      (indicatorChecked
          (RadioButtonItem.render props context).child.radioButton.status
          context
          (RadioButtonItem.render props context).child.radioButton.value
        = true ↔ s = Status.checked)) ∧
    (props.status = none →
      (indicatorChecked
          (RadioButtonItem.render props context).child.radioButton.status
          context
          (RadioButtonItem.render props context).child.radioButton.value
        = true ↔ ∃ ctx, context = some ctx ∧ ctx.value = props.value)) ∧
    (props.status = none → context = none →
      indicatorChecked
          (RadioButtonItem.render props context).child.radioButton.status
          context
          (RadioButtonItem.render props context).child.radioButton.value
        = false) := by
  refine ⟨?_, ?_, ?_⟩
  · intro s hs
    cases s <;> simp [RadioButtonItem.render, indicatorChecked, hs]
  · intro hs
    cases context with
    | none => simp [RadioButtonItem.render, indicatorChecked, hs]
    | some ctx =>
        simp [RadioButtonItem.render, indicatorChecked, hs]
  · intro hs hc
    subst hc
    simp [RadioButtonItem.render, indicatorChecked, hs]

/-- Witness for C1 at a concrete input: with no explicit `status` and a
channel whose value equals the item's value, the indicator is checked. -/
theorem C1_witness :
    indicatorChecked
        (RadioButtonItem.render propsA (some ctxA)).child.radioButton.status
        (some ctxA)
        (RadioButtonItem.render propsA (some ctxA)).child.radioButton.value
      = true :=
  ((C1_indicator_checked_state propsA (some ctxA)).2.1 rfl).mpr ⟨ctxA, rfl, rfl⟩

/-- C2: on a press of an enabled item, the item's `onPress` (when present)
is invoked with no arguments, the channel's `onValueChange` (when present)
is invoked with the item's own value and never any other value, and when
both are present `onPress` fires strictly before `onValueChange`. -/
theorem C2_press_dispatch_order (props : Props)
    (context : Option RadioButtonContextType)
    (hd : props.disabled.getD false = false) :
    ∃ tr, (RadioButtonItem.render props context).onPress = some tr ∧
      (props.onPress.isSome = true → Event.itemOnPress ∈ tr) ∧
      ((context.bind fun c => c.onValueChange).isSome = true →
        Event.groupOnValueChange props.value ∈ tr) ∧
      (∀ v, Event.groupOnValueChange v ∈ tr → v = props.value) ∧
      (props.onPress.isSome = true →
        (context.bind fun c => c.onValueChange).isSome = true →
        tr = [Event.itemOnPress, Event.groupOnValueChange props.value]) := by
  refine ⟨handlePress props.onPress (context.bind fun c => c.onValueChange)
    props.value, ?_, ?_, ?_, ?_, ?_⟩
  · simp [RadioButtonItem.render, hd]
  all_goals
    cases hp : props.onPress <;>
      cases hv : context.bind (fun c => c.onValueChange) <;>
        simp [handlePress, hp, hv]

/-- Witness for C2 at a concrete input: enabled item with both callbacks
present dispatches the item callback first, then the group callback with
the item's own value. -/
theorem C2_witness :
    (RadioButtonItem.render propsA (some ctxA)).onPress =
      some [Event.itemOnPress, Event.groupOnValueChange firstValue] := by
  obtain ⟨tr, htr, -, -, -, hboth⟩ :=
    C2_press_dispatch_order propsA (some ctxA) rfl
  rw [htr, hboth rfl rfl]
  rfl

/-- C3: when `disabled` is true no press handler is attached to the row,
for every combination of callbacks and channel state, so a press invokes
neither callback. -/
theorem C3_disabled_detaches_handler (props : Props)
    (context : Option RadioButtonContextType)
    (hd : props.disabled = some true) :
    (RadioButtonItem.render props context).onPress = none := by
  simp [RadioButtonItem.render, hd]

/-- A disabled variant of `propsA`, used by witnesses. -/
def propsB : Props :=
  { propsA with disabled := some true }

/-- Witness for C3 at a concrete input. -/
theorem C3_witness :
    (RadioButtonItem.render propsB (some ctxA)).onPress = none :=
  C3_disabled_detaches_handler propsB (some ctxA) rfl

/-- C4: with both the item's `onPress` and the channel's `onValueChange`
absent, pressing an enabled item dispatches no event at all: the attached
handler produces the empty trace. -/
theorem C4_noop_when_no_callbacks (props : Props)
    (context : Option RadioButtonContextType)
    (hd : props.disabled.getD false = false)
    (hp : props.onPress = none)
    (hv : context.bind (fun c => c.onValueChange) = none) :
    (RadioButtonItem.render props context).onPress = some [] := by
  simp [RadioButtonItem.render, handlePress, hd, hp, hv]

/-- A callback-free enabled variant of `propsA`, used by witnesses. -/
def propsC : Props :=
  { propsA with onPress := none }

/-- Witness for C4 at a concrete input: no channel, no local callback. -/
theorem C4_witness :
    (RadioButtonItem.render propsC none).onPress = some [] :=
  C4_noop_when_no_callbacks propsC none rfl rfl rfl

/-- C5: rendering is deterministic and stateless: any two renders of the
same props and channel produce the same output tree. -/
theorem C5_render_deterministic (props : Props)
    (context : Option RadioButtonContextType)
    (first second : TouchableRippleNode)
    (h1 : first = RadioButtonItem.render props context)
    (h2 : second = RadioButtonItem.render props context) :
    first = second := by
  rw [h1, h2]

/-- Witness for C5 at a concrete input. -/
theorem C5_witness :
    RadioButtonItem.render propsA (some ctxA) =
      RadioButtonItem.render propsA (some ctxA) :=
  C5_render_deterministic propsA (some ctxA) _ _ rfl rfl

/-- C6: the row is a single interactive target: the inner view wrapping
the label and the indicator always carries `pointerEvents="none"`, so the
child content captures no presses, and the row-level handler is attached
exactly when the item is not disabled. -/
theorem C6_single_press_target (props : Props)
    (context : Option RadioButtonContextType) :
    (RadioButtonItem.render props context).child.pointerEventsNone = true ∧
    ((RadioButtonItem.render props context).onPress.isSome = true ↔
      props.disabled.getD false = false) := by
  constructor
  · rfl
  · cases hd : props.disabled.getD false <;>
      simp [RadioButtonItem.render, hd]

/-- Witness for C6 at a concrete input. -/
theorem C6_witness :
    (RadioButtonItem.render propsA (some ctxA)).child.pointerEventsNone
        = true ∧
      ((RadioButtonItem.render propsA (some ctxA)).onPress.isSome = true ↔
        propsA.disabled.getD false = false) :=
  C6_single_press_target propsA (some ctxA)

/-- C7: `style` and `labelStyle` have no behavioral effect: two renders
differing only in those props attach the same press handler (hence the
same fired callbacks and the same dispatched value) and yield the same
indicator checked state. -/
theorem C7_style_no_behavioral_effect (props : Props)
    (context : Option RadioButtonContextType)
    (s s' : Option ViewStyleProp) (ls ls' : Option TextStyleProp) :
    (RadioButtonItem.render
        { props with style := s, labelStyle := ls } context).onPress =
      (RadioButtonItem.render
        { props with style := s', labelStyle := ls' } context).onPress ∧
    indicatorChecked
        (RadioButtonItem.render { props with style := s, labelStyle := ls }
          context).child.radioButton.status
        context
        (RadioButtonItem.render { props with style := s, labelStyle := ls }
          context).child.radioButton.value =
      indicatorChecked
        (RadioButtonItem.render { props with style := s', labelStyle := ls' }
          context).child.radioButton.status
        context
        (RadioButtonItem.render { props with style := s', labelStyle := ls' }
          context).child.radioButton.value :=
  ⟨rfl, rfl⟩

/-- C8: the label's effective text color is the theme's text color unless
`labelStyle` sets a color, which then takes precedence; the indicator
receives the `color` and `uncheckedColor` props exactly as supplied. -/
theorem C8_label_and_indicator_colors (props : Props)
    (context : Option RadioButtonContextType) :
    flattenTextColor (RadioButtonItem.render props context).child.text.style =
      some ((props.labelStyle.bind fun t => t.color).getD
        props.theme.colors.text) ∧
    (RadioButtonItem.render props context).child.radioButton.color =
      props.color ∧
    (RadioButtonItem.render props context).child.radioButton.uncheckedColor =
      props.uncheckedColor := by
  refine ⟨?_, rfl, rfl⟩
  cases hls : props.labelStyle with
  | none => simp [RadioButtonItem.render, flattenTextColor, stylesLabel, hls]
  | some t =>
      cases ht : t.color <;>
        simp [RadioButtonItem.render, flattenTextColor, stylesLabel, hls, ht]

/-- Witness for C8 at a concrete input: with no `labelStyle` override the
label's effective color is the theme's text color. -/
theorem C8_witness :
    flattenTextColor
        (RadioButtonItem.render propsA (some ctxA)).child.text.style =
      some blackColor :=
  (C8_label_and_indicator_colors propsA (some ctxA)).1

/-- C9: whenever `disabled` is falsy a press handler is attached to the
row, even when both the local `onPress` and the channel are absent: only
`disabled` controls attachment. -/
theorem C9_enabled_always_interactive (props : Props)
    (context : Option RadioButtonContextType)
    (hd : props.disabled.getD false = false) :
    (RadioButtonItem.render props context).onPress.isSome = true := by
  simp [RadioButtonItem.render, hd]

/-- Witness for C9 at a concrete input: enabled, no local callback, no
channel — the handler is still attached. -/
theorem C9_witness :
    (RadioButtonItem.render propsC none).onPress.isSome = true :=
  C9_enabled_always_interactive propsC none rfl

/-- C10: within one render the indicator receives exactly the item's
`value`, and every value the attached handler dispatches to the channel's
`onValueChange` equals that same rendered indicator value. -/
theorem C10_value_consistency (props : Props)
    (context : Option RadioButtonContextType) :
    (RadioButtonItem.render props context).child.radioButton.value =
      props.value ∧
    ∀ tr, (RadioButtonItem.render props context).onPress = some tr →
      ∀ v, Event.groupOnValueChange v ∈ tr →
        v = (RadioButtonItem.render props context).child.radioButton.value := by
  refine ⟨rfl, ?_⟩
  intro tr htr v hv
  cases hd : props.disabled.getD false with
  | true => simp [RadioButtonItem.render, hd] at htr
  | false =>
      simp [RadioButtonItem.render, hd] at htr
      subst htr
      cases hp : props.onPress <;>
        cases hvc : context.bind (fun c => c.onValueChange) <;>
          simp [handlePress, hp, hvc] at hv <;>
            simp [RadioButtonItem.render, hv]

/-- Witness for C10 at a concrete input: the value dispatched by the
attached handler equals the rendered indicator's value. -/
theorem C10_witness :
    firstValue =
      (RadioButtonItem.render propsA (some ctxA)).child.radioButton.value :=
  (C10_value_consistency propsA (some ctxA)).2
    [Event.itemOnPress, Event.groupOnValueChange firstValue] rfl firstValue
    (by simp)
